import Mathlib

/-
Shallow embedding of the runint repository (src/runint): the run-configuration
data model, the Docker Compose manifest generator
(runtime/deploy/generators.py), and the lifecycle manager
(runtime/manager.py).  External collaborators (the filesystem, the
docker-compose subprocess, the HTTP stack) are passed in explicitly as
oracles, and the side effects of each operation (files written, processes
invoked, pull requests issued, warnings logged) are returned as traces.
-/

namespace Runint

/-- A model descriptor from the run configuration: each entry has at least a
name (spec section 3; the pydantic schema file is not in src). -/
structure ModelConfig where
  name : String
deriving DecidableEq

/-- Modelled from the spec: the engine part of the run configuration — a
provider discriminator plus provider-specific settings (spec section 3: a
model path, port override, resource limits; the pydantic schema file
schemas/config.py is not in src).  `model_dump()` on this object yields the
settings dictionary handed to the adapter, here represented by the record
itself. -/
structure EngineConfig where
  provider : String
  settings : List (String × String)
deriving DecidableEq

/-- RunConfig (schemas/config.py, not in src; fields as described in spec
section 3 and as accessed by manager.py and generators.py): an engine
description and an ordered list of models. -/
structure RunConfig where
  engine : EngineConfig
  models : List ModelConfig
deriving DecidableEq

/-- A docker-compose service definition: the orchestration fields produced by
one engine adapter (runtime/engines/base.py: a dictionary representing a
service in docker-compose.yml).  A missing "volumes" key is represented by
the empty list, which the generator volume scan treats identically. -/
structure ServiceDef where
  image : String
  ports : List String
  volumes : List String
  command : List String
  environment : List (String × String)
deriving DecidableEq

/-- Modelled from the spec: runtime/engines/ollama.py is not in src.  Spec
section 4.1: the adapter maps the engine settings to a ServiceDefinition,
applying provider defaults for image, port and volume mounts; ollama starts
empty (models are pulled later via API), so no model appears in the
command. -/
def OllamaEngine.get_docker_service_config (_config : EngineConfig) : ServiceDef :=
  { image := "ollama/ollama"
    ports := ["11434:11434"]
    volumes := ["ollama_data:/root/.ollama"]
    command := []
    environment := [] }

/-- Modelled from the spec: runtime/engines/vllm.py is not in src.  Spec
section 4.1: the adapter maps the engine settings (for example a model path
setting) to a ServiceDefinition with provider defaults.  Note the adapter
receives only the engine settings — generators.py hands it
`engine.model_dump()` — so the command can depend only on those settings. -/
def VLLMEngine.get_docker_service_config (config : EngineConfig) : ServiceDef :=
  { image := "vllm/vllm-openai:latest"
    ports := ["8000:8000"]
    volumes := ["vllm_cache:/root/.cache/huggingface"]
    command := ["--model", (config.settings.lookup "model").getD ""]
    environment := [] }

/-- Errors raised by the embedded Python code, one constructor per Python
exception class that can escape the modelled functions. -/
inductive NetError where
  | connectionError
  | readTimeout
  | httpError
deriving DecidableEq

/-- Python-level exceptions of the modelled code paths. -/
inductive PyError where
  | attributeError (attr : String)
  | valueError (msg : String)
  | fileNotFoundError (msg : String)
  | runtimeError (msg : String)
  | timeoutError (msg : String)
  | requestError (e : NetError)
deriving DecidableEq

/-- The compose dictionary assembled by DockerComposeGenerator.generate before
YAML serialization: version marker, a single service keyed by provider name,
and the derived named-volumes mapping (its keys, in insertion order). -/
structure ComposeDict where
  version : String
  serviceName : String
  service : ServiceDef
  volumes : List String
deriving DecidableEq

/-- Python dict key insertion for `compose_dict["volumes"][vol_name] = {}`:
a repeated key keeps its first position (the value is always the empty
dict, so only the key set and order matter). -/
def dictInsert (keys : List String) (k : String) : List String :=
  if k ∈ keys then keys else keys ++ [k]

/-- `vol.split(":")[0]` — the left-hand side of a volume declaration: the
characters before the first colon (the whole string when there is none).
Python split always returns at least one element, and its first element is
exactly this prefix. -/
def volumeName (vol : String) : String :=
  String.mk (vol.data.takeWhile (fun c => c != ':'))

/-- The generator named-volume test: `"/" not in vol_name and "~" not in
vol_name` — single-character substring containment, i.e. character
membership. -/
def isNamedVolume (vol_name : String) : Bool :=
  !vol_name.data.contains '/' && !vol_name.data.contains '~'

/-- One iteration of the generator volume loop (generators.py lines
42-46). -/
def addNamedVolume (acc : List String) (vol : String) : List String :=
  let vol_name := volumeName vol
  if isNamedVolume vol_name then dictInsert acc vol_name else acc

/-- The generator volume scan: for every declaration whose left-hand side
is a bare name, register it as a top-level named volume. -/
def collectNamedVolumes (volumes : List String) : List String :=
  volumes.foldl addNamedVolume []

/-- One rendered line per field; stands in for yaml.dump (an external
library), deterministic and order-preserving as the source requests with
sort_keys=False. -/
def composeToYaml (c : ComposeDict) : String :=
  "version: " ++ c.version ++ "\n" ++
  "services:\n  " ++ c.serviceName ++ ":\n" ++
  "    image: " ++ c.service.image ++ "\n" ++
  "    ports: " ++ String.intercalate "," c.service.ports ++ "\n" ++
  "    volumes: " ++ String.intercalate "," c.service.volumes ++ "\n" ++
  "    command: " ++ String.intercalate " " c.service.command ++ "\n" ++
  "volumes: " ++ String.intercalate "," c.volumes ++ "\n"

/-- DockerComposeGenerator.generate (generators.py lines 11-49), up to YAML
serialization: dispatch on the provider, build the compose structure, scan
the volume declarations.  The adapter is constructed from
`self.run_config.engine.model_dump()` — only the engine settings, never
`run_config.models`. -/
def DockerComposeGenerator.generateDict (run_config : RunConfig) : Except PyError ComposeDict :=
  let provider := run_config.engine.provider
  let engine_conf := run_config.engine
  if provider = "ollama" then
    let service_def := OllamaEngine.get_docker_service_config engine_conf
    .ok { version := "3.8", serviceName := "ollama", service := service_def,
          volumes := collectNamedVolumes service_def.volumes }
  else if provider = "vllm" then
    let service_def := VLLMEngine.get_docker_service_config engine_conf
    .ok { version := "3.8", serviceName := "vllm", service := service_def,
          volumes := collectNamedVolumes service_def.volumes }
  else
    .error (.valueError ("Unsupported provider: " ++ provider))

/-- DockerComposeGenerator.generate: the full docker-compose.yml content as a
string, or ValueError for an unsupported provider. -/
def DockerComposeGenerator.generate (run_config : RunConfig) : Except PyError String :=
  (DockerComposeGenerator.generateDict run_config).map composeToYaml

/-- RuntimeManager instance attributes.  __init__ (manager.py lines 13-15)
assigns `self.config` and `self.compose_file` only; `generate_deployment`
(line 22) reads `self.run_config`, an attribute no method ever assigns, so
it is carried here as an Option that is none after construction — reading
it while absent is Python AttributeError. -/
structure RuntimeManager where
  config : RunConfig
  compose_file : String
  run_config : Option RunConfig
deriving DecidableEq

/-- RuntimeManager.__init__: store the configuration and the default compose
file path. -/
def RuntimeManager.init (config : RunConfig) : RuntimeManager :=
  { config := config, compose_file := "docker-compose.yml", run_config := none }

/-- RuntimeManager.generate_deployment (manager.py lines 17-28): record the
output path, build the generator from `self.run_config`, write the YAML.
Returns the outcome, the post-call manager state, and the list of
(path, content) filesystem writes performed. -/
def RuntimeManager.generate_deployment (self : RuntimeManager) (output_path : String) :
    Except PyError Unit × RuntimeManager × List (String × String) :=
  let self1 := { self with compose_file := output_path }
  match self1.run_config with
  | none => (.error (.attributeError "run_config"), self1, [])
  | some rc =>
      match DockerComposeGenerator.generate rc with
      | .error e => (.error e, self1, [])
      | .ok yaml_content => (.ok (), self1, [(output_path, yaml_content)])

/-- RuntimeManager._pull_ollama_model (manager.py lines 78-93): POST to the
pull endpoint and raise_for_status; any requests.RequestException is logged
and re-raised.  The HTTP stack is abstracted as the pull oracle. -/
def RuntimeManager.pull_ollama_model (pull : String → Except NetError Unit)
    (model_name : String) : Except PyError Unit :=
  match pull model_name with
  | .ok _ => .ok ()
  | .error e => .error (.requestError e)

/-- The for loop of RuntimeManager.execute_models (manager.py lines 67-76):
per configured model, pull it for ollama, log intent for vllm, warn
otherwise.  Returns the outcome, the pull requests issued (model names, in
order), and the warnings emitted (model names, in order). -/
def execute_models_loop (provider : String) (models : List ModelConfig)
    (pull : String → Except NetError Unit) :
    Except PyError Unit × List String × List String :=
  match models with
  | [] => (.ok (), [], [])
  | m :: rest =>
      if provider = "ollama" then
        match RuntimeManager.pull_ollama_model pull m.name with
        | .error e => (.error e, [m.name], [])
        | .ok _ =>
            let r := execute_models_loop provider rest pull
            (r.1, m.name :: r.2.1, r.2.2)
      else if provider = "vllm" then
        execute_models_loop provider rest pull
      else
        let r := execute_models_loop provider rest pull
        (r.1, r.2.1, m.name :: r.2.2)

/-- RuntimeManager.execute_models (manager.py lines 61-76). -/
def RuntimeManager.execute_models (self : RuntimeManager)
    (pull : String → Except NetError Unit) :
    Except PyError Unit × List String × List String :=
  execute_models_loop self.config.engine.provider self.config.models pull

/-- Message of the TimeoutError raised by _wait_for_health. -/
def healthTimeoutMsg : String := "Engine failed to become responsive within timeout."

/-- The provider-dependent port probed by _wait_for_health (manager.py line
101). -/
def healthPort (provider : String) : Nat :=
  if provider = "ollama" then 11434 else 8000

/-- The while loop of RuntimeManager._wait_for_health (manager.py lines
106-116).  `probe i` is the outcome of the i-th `requests.get`, `dur i` the
wall-clock seconds that attempt takes (the source bounds it by a 1-second
request timeout); a retry additionally sleeps 2 seconds.  Only
requests.ConnectionError is caught and retried; any other request error
propagates; when the elapsed time reaches the timeout the loop ends and
TimeoutError is raised. -/
def wait_for_health_loop (probe : Nat → Except NetError Unit) (dur : Nat → Nat)
    (timeout : Nat) (i : Nat) (elapsed : Nat) : Except PyError Unit :=
  if _h : elapsed < timeout then
    match probe i with
    | .ok _ => .ok ()
    | .error .connectionError =>
        wait_for_health_loop probe dur timeout (i + 1) (elapsed + dur i + 2)
    | .error e => .error (.requestError e)
  else
    .error (.timeoutError healthTimeoutMsg)
termination_by timeout - elapsed
decreasing_by omega

/-- RuntimeManager._wait_for_health (manager.py lines 95-116), with its
default timeout of 60 seconds applied at the call site. -/
def wait_for_health (probe : Nat → Except NetError Unit) (dur : Nat → Nat)
    (timeout : Nat) : Except PyError Unit :=
  wait_for_health_loop probe dur timeout 0 0

/-- The external collaborators of start_environment: which files exist, the
exit code of `docker-compose up -d`, the health-probe oracle and per-attempt
durations, and the model-pull oracle. -/
structure Env where
  fs : List String
  upExit : Nat
  probe : Nat → Except NetError Unit
  dur : Nat → Nat
  pull : String → Except NetError Unit

/-- Observable side effects of one start_environment call. -/
structure Trace where
  processCalls : List (List String)
  healthInvoked : Bool
  executeModelsInvoked : Bool
  pullCalls : List String
  warnings : List String
deriving DecidableEq

/-- The empty trace. -/
def Trace.empty : Trace :=
  { processCalls := [], healthInvoked := false, executeModelsInvoked := false,
    pullCalls := [], warnings := [] }

/-- RuntimeManager.start_environment (manager.py lines 30-52): guard on the
compose file existence, run `docker-compose up -d` (CalledProcessError on
a non-zero exit is caught and re-raised as RuntimeError), then health-poll
and load models; errors from those two steps are not caught (the except
clause matches only subprocess.CalledProcessError). -/
def RuntimeManager.start_environment (self : RuntimeManager) (env : Env) :
    Except PyError Unit × Trace :=
  if self.compose_file ∈ env.fs then
    let tr0 := { Trace.empty with
                 processCalls := [["docker-compose", "-f", self.compose_file, "up", "-d"]] }
    if env.upExit = 0 then
      let tr1 := { tr0 with healthInvoked := true }
      match wait_for_health env.probe env.dur 60 with
      | .error e => (.error e, tr1)
      | .ok _ =>
          let r := self.execute_models env.pull
          (r.1, { tr1 with executeModelsInvoked := true,
                           pullCalls := r.2.1, warnings := r.2.2 })
    else
      (.error (.runtimeError "Docker Compose failed to start."), tr0)
  else
    (.error (.fileNotFoundError ("Compose file " ++ self.compose_file ++
       " not found. Run generate_deployment() first.")), Trace.empty)

/-- RuntimeManager.stop_environment (manager.py lines 54-59): best-effort
`docker-compose down`, exit code not consulted. -/
def RuntimeManager.stop_environment (self : RuntimeManager) : List (List String) :=
  [["docker-compose", "-f", self.compose_file, "down"]]

/-- A concrete well-formed configuration for the registered ollama
provider. -/
def ollamaCfg : RunConfig :=
  { engine := { provider := "ollama", settings := [] },
    models := [{ name := "llama2" }] }

/-- A concrete well-formed configuration for the registered vllm provider. -/
def vllmCfg : RunConfig :=
  { engine := { provider := "vllm", settings := [] },
    models := [{ name := "mymodel" }] }

/-- A concrete configuration whose provider is not registered. -/
def badCfg : RunConfig :=
  { engine := { provider := "unknowneng", settings := [] },
    models := [] }

end Runint

namespace Runint

/-- C1: the claim says generate_deployment invokes the Generator, writes the
manifest to outputPath and completes without error; on the code, every call
— whatever the configuration and output path — raises
AttributeError("run_config") (manager.py line 22 reads self.run_config,
which __init__ never assigns) and performs no filesystem write, so the
Generator is never reached. -/
theorem generate_deployment_always_raises_attribute_error
    (cfg : RunConfig) (output_path : String) :
    ((RuntimeManager.init cfg).generate_deployment output_path).1
        = .error (.attributeError "run_config")
    ∧ ((RuntimeManager.init cfg).generate_deployment output_path).2.2 = [] :=
  ⟨rfl, rfl⟩

/-- C2: the claim says every model name in RunConfiguration.models appears in
the ServiceDefinition generated for the vllm provider; on the code,
generation depends only on the engine part of the configuration (the adapter
is built from engine.model_dump() alone, generators.py line 16), so the
generated manifest is identical for any two model lists and in particular
the configured model names cannot be reflected in it. -/
theorem generate_ignores_models (e : EngineConfig) (m1 m2 : List ModelConfig) :
    DockerComposeGenerator.generate { engine := e, models := m1 }
      = DockerComposeGenerator.generate { engine := e, models := m2 } :=
  rfl

/-- C3: the claim says an unsupported provider makes generation raise the
Generator unsupported-provider error before any filesystem write.  On the
code, the Generator in isolation does raise
ValueError("Unsupported provider: ..."), and no file is written — but the
actual generate_deployment call raises AttributeError("run_config")
(manager.py line 22) before the Generator is ever constructed, so the error
that surfaces is not the configuration error the claim names. -/
theorem unsupported_provider_attribute_error_before_write :
    DockerComposeGenerator.generate badCfg
        = .error (.valueError "Unsupported provider: unknowneng")
    ∧ ((RuntimeManager.init badCfg).generate_deployment "docker-compose.yml").1
        = .error (.attributeError "run_config")
    ∧ ((RuntimeManager.init badCfg).generate_deployment "docker-compose.yml").2.2 = [] :=
  ⟨rfl, rfl, rfl⟩

/-- All pulls succeeding makes the ollama loop pull every configured model in
order and return success. -/
lemma execute_models_loop_ollama_all_ok (models : List ModelConfig)
    (pull : String → Except NetError Unit) (h : ∀ m ∈ models, pull m.name = .ok ()) :
    execute_models_loop "ollama" models pull = (.ok (), models.map ModelConfig.name, []) := by
  induction models with
  | nil => rfl
  | cons m rest ih =>
      have hm : pull m.name = .ok () := h m (by simp)
      have ih' := ih (fun p hp => h p (by simp [hp]))
      simp [execute_models_loop, RuntimeManager.pull_ollama_model, hm, ih']

/-- A failing pull after a successful prefix stops the ollama loop there and
propagates the request error. -/
lemma execute_models_loop_ollama_first_failure (pre : List ModelConfig)
    (m : ModelConfig) (post : List ModelConfig) (e : NetError)
    (pull : String → Except NetError Unit)
    (hpre : ∀ p ∈ pre, pull p.name = .ok ()) (hm : pull m.name = .error e) :
    execute_models_loop "ollama" (pre ++ m :: post) pull
      = (.error (.requestError e), pre.map ModelConfig.name ++ [m.name], []) := by
  induction pre with
  | nil => simp [execute_models_loop, RuntimeManager.pull_ollama_model, hm]
  | cons p rest ih =>
      have hp : pull p.name = .ok () := hpre p (by simp)
      have ih' := ih (fun q hq => hpre q (by simp [hq]))
      simp [execute_models_loop, RuntimeManager.pull_ollama_model, hp, ih']

/-- C5: for the ollama provider, execute_models issues exactly one pull per
configured model, sequentially in configuration order; if every pull
succeeds the issued requests are exactly the configured names in order, and
if the pull of some model fails after a successful prefix, the requests stop
with that model (none for later models, none repeated) and the failure
propagates to the caller. -/
theorem execute_models_ollama_pull_sequence (models : List ModelConfig)
    (pull : String → Except NetError Unit) :
    ((∀ m ∈ models, pull m.name = .ok ()) →
        execute_models_loop "ollama" models pull
          = (.ok (), models.map ModelConfig.name, []))
    ∧ (∀ (pre : List ModelConfig) (m : ModelConfig) (post : List ModelConfig) (e : NetError),
        models = pre ++ m :: post →
        (∀ p ∈ pre, pull p.name = .ok ()) →
        pull m.name = .error e →
        execute_models_loop "ollama" models pull
          = (.error (.requestError e), pre.map ModelConfig.name ++ [m.name], [])) := by
  constructor
  · exact execute_models_loop_ollama_all_ok models pull
  · intro pre m post e hsplit hpre hm
    subst hsplit
    exact execute_models_loop_ollama_first_failure pre m post e pull hpre hm

/-- C5 witness: two configured models where the second pull fails — exactly
one successful pull and one failed pull occur, no pull for later models, and
the failure propagates. -/
theorem execute_models_ollama_pull_sequence_witness :
    execute_models_loop "ollama" [{ name := "m1" }, { name := "m2" }]
        (fun n => if n = "m1" then .ok () else .error .httpError)
      = (.error (.requestError .httpError), ["m1", "m2"], []) :=
  (execute_models_ollama_pull_sequence [{ name := "m1" }, { name := "m2" }]
      (fun n => if n = "m1" then .ok () else .error .httpError)).2
    [{ name := "m1" }] { name := "m2" } [] .httpError rfl
    (by intro p hp; simp only [List.mem_singleton] at hp; subst hp; rfl) rfl

/-- C10: for a provider that is neither "ollama" nor "vllm", execute_models
completes without error for every model list, issues no pull request, and
emits one warning per configured model. -/
theorem execute_models_unknown_provider_warns_only (provider : String)
    (models : List ModelConfig) (pull : String → Except NetError Unit)
    (h1 : provider ≠ "ollama") (h2 : provider ≠ "vllm") :
    execute_models_loop provider models pull
      = (.ok (), [], models.map ModelConfig.name) := by
  induction models with
  | nil => rfl
  | cons m rest ih => simp [execute_models_loop, h1, h2, ih]

/-- C10 witness: the unregistered provider "tgi" with two models and a pull
oracle that always fails — no pull is attempted, the call succeeds, and one
warning per model is logged. -/
theorem execute_models_unknown_provider_warns_only_witness :
    execute_models_loop "tgi" [{ name := "a" }, { name := "b" }]
        (fun _ => .error .httpError)
      = (.ok (), [], ["a", "b"]) :=
  execute_models_unknown_provider_warns_only "tgi"
    [{ name := "a" }, { name := "b" }] (fun _ => .error .httpError)
    (by decide) (by decide)

/-- C9: generate_deployment assigns self.compose_file = output_path
(manager.py line 21) before touching the generator, so after every call —
all of which fail with AttributeError — the session recorded manifest path
is the new output path: the session state is not left unchanged on error. -/
theorem generate_deployment_records_path_first
    (self : RuntimeManager) (output_path : String) :
    ((self.generate_deployment output_path).2.1).compose_file = output_path := by
  unfold RuntimeManager.generate_deployment
  rcases h : ({ self with compose_file := output_path } : RuntimeManager).run_config with _ | rc
  · simp [h]
  · rcases hg : DockerComposeGenerator.generate rc with e | y <;> simp [h, hg]

/-- When every probe attempt yields a connection refusal, the poll loop keeps
retrying until the elapsed time reaches the timeout and then raises
TimeoutError, from any starting attempt index and elapsed time. -/
lemma wait_for_health_loop_conn_refused (probe : Nat → Except NetError Unit)
    (dur : Nat → Nat) (timeout : Nat)
    (h : ∀ i, probe i = .error .connectionError) :
    ∀ (n i elapsed : Nat), timeout - elapsed ≤ n →
      wait_for_health_loop probe dur timeout i elapsed
        = .error (.timeoutError healthTimeoutMsg) := by
  intro n
  induction n with
  | zero =>
      intro i elapsed hle
      have hnl : ¬ elapsed < timeout := by omega
      unfold wait_for_health_loop
      simp [hnl]
  | succ n ih =>
      intro i elapsed hle
      unfold wait_for_health_loop
      by_cases hlt : elapsed < timeout
      · simp only [hlt, dif_pos, h i]
        exact ih (i + 1) (elapsed + dur i + 2) (by omega)
      · simp [hlt]

/-- C4 counterexample: a probe whose very first attempt raises a network
error that is not a connection refusal (a read timeout).  The poll does not
retry it: the loop ends at once with that propagated request error, an
outcome distinct from both "became reachable" and the TimeoutError — so
"every other class of network error is retried" and "the only two
distinguishable outcomes are reachable and timeout" are both false of the
code. -/
theorem wait_for_health_read_timeout_not_retried :
    wait_for_health (fun _ => .error .readTimeout) (fun _ => 1) 60
        = .error (.requestError .readTimeout)
    ∧ (Except.error (PyError.requestError .readTimeout) : Except PyError Unit)
        ≠ .error (.timeoutError healthTimeoutMsg) := by
  constructor
  · unfold wait_for_health wait_for_health_loop
    simp
  · intro h
    injection h with h2
    exact PyError.noConfusion h2

/-- C4 amended: during the readiness poll, a connection refusal is treated as
"not yet ready" and retried; a network error of any other class is not
retried — it propagates immediately as that request error; a probe that only
ever refuses connections makes the poll raise a timeout-specific error
(TimeoutError) once the timeout elapses, distinct from a connection error;
and a successful probe returns normally ("became reachable"). -/
theorem wait_for_health_outcomes (probe : Nat → Except NetError Unit)
    (dur : Nat → Nat) (timeout : Nat) :
    ((∀ i, probe i = .error .connectionError) →
        wait_for_health probe dur timeout = .error (.timeoutError healthTimeoutMsg))
    ∧ (∀ e : NetError, probe 0 = .error e → e ≠ .connectionError → 0 < timeout →
        wait_for_health probe dur timeout = .error (.requestError e))
    ∧ (probe 0 = .ok () → 0 < timeout →
        wait_for_health probe dur timeout = .ok ()) := by
  refine ⟨?_, ?_, ?_⟩
  · intro h
    exact wait_for_health_loop_conn_refused probe dur timeout h (timeout - 0) 0 0 le_rfl
  · intro e h0 hne ht
    unfold wait_for_health wait_for_health_loop
    cases e with
    | connectionError => exact absurd rfl hne
    | readTimeout => simp [ht, h0]
    | httpError => simp [ht, h0]
  · intro h0 ht
    unfold wait_for_health wait_for_health_loop
    simp [ht, h0]

/-- C4 amended witness: a probe that always refuses connections, with the
source 60-second timeout — the poll ends with the TimeoutError. -/
theorem wait_for_health_outcomes_witness :
    wait_for_health (fun _ => .error .connectionError) (fun _ => 1) 60
      = .error (.timeoutError healthTimeoutMsg) :=
  (wait_for_health_outcomes (fun _ => .error .connectionError) (fun _ => 1) 60).1
    (fun _ => rfl)

/-- An environment in which the default compose file already exists on disk
and `docker-compose up -d` exits with code 1. -/
def envUpFails : Env :=
  { fs := ["docker-compose.yml"], upExit := 1,
    probe := fun _ => .ok (), dur := fun _ => 0, pull := fun _ => .ok () }

/-- An environment with an empty filesystem (no compose file anywhere). -/
def envNoFiles : Env :=
  { fs := [], upExit := 0,
    probe := fun _ => .ok (), dur := fun _ => 0, pull := fun _ => .ok () }

/-- C6 counterexample: a session on which generate_deployment was never
called (a freshly constructed manager, state Unstarted) but whose default
path "docker-compose.yml" happens to exist on disk.  start_environment does
not fail fast with the usage error: it invokes the container runtime
(`docker-compose up -d`), because the guard checks only file existence, and
the failure it then reports is the runtime startup error. -/
theorem start_environment_unstarted_invokes_runtime :
    ((RuntimeManager.init ollamaCfg).start_environment envUpFails).2.processCalls
        = [["docker-compose", "-f", "docker-compose.yml", "up", "-d"]]
    ∧ ((RuntimeManager.init ollamaCfg).start_environment envUpFails).1
        = .error (.runtimeError "Docker Compose failed to start.") := by
  constructor <;> rfl

/-- C6 amended: when no file exists at the session recorded manifest path
— in particular for an Unstarted session in a directory with no stray
compose file — start_environment fails fast with FileNotFoundError, a usage
error distinct from the RuntimeError used for startup failures, and never
invokes the container runtime; the guard is the file existence, so a
pre-existing file at the default path lets an Unstarted session proceed. -/
theorem start_environment_no_manifest_fails_fast (cfg : RunConfig) (env : Env)
    (h : "docker-compose.yml" ∉ env.fs) :
    ((RuntimeManager.init cfg).start_environment env).1
        = .error (.fileNotFoundError
            "Compose file docker-compose.yml not found. Run generate_deployment() first.")
    ∧ ((RuntimeManager.init cfg).start_environment env).2.processCalls = []
    ∧ ∀ m m' : String, PyError.fileNotFoundError m ≠ PyError.runtimeError m' := by
  have hne : ¬ ((RuntimeManager.init cfg).compose_file ∈ env.fs) := h
  refine ⟨?_, ?_, fun m m' hc => PyError.noConfusion hc⟩
  · unfold RuntimeManager.start_environment
    rw [if_neg hne]
    rfl
  · unfold RuntimeManager.start_environment
    rw [if_neg hne]
    rfl

/-- C6 amended witness: an Unstarted session over an empty filesystem fails
with the FileNotFoundError usage message and invokes no process. -/
theorem start_environment_no_manifest_fails_fast_witness :
    ((RuntimeManager.init ollamaCfg).start_environment envNoFiles).1
        = .error (.fileNotFoundError
            "Compose file docker-compose.yml not found. Run generate_deployment() first.")
    ∧ ((RuntimeManager.init ollamaCfg).start_environment envNoFiles).2.processCalls = []
    ∧ ∀ m m' : String, PyError.fileNotFoundError m ≠ PyError.runtimeError m' :=
  start_environment_no_manifest_fails_fast ollamaCfg envNoFiles (by simp [envNoFiles])

/-- C7: whenever the compose file exists but `docker-compose up -d` exits
non-zero, start_environment raises the startup RuntimeError and performs
zero health-poll attempts and zero model-load calls (neither step is
invoked, no pull is issued). -/
theorem start_environment_nonzero_exit_aborts (self : RuntimeManager) (env : Env)
    (hfs : self.compose_file ∈ env.fs) (hexit : env.upExit ≠ 0) :
    (self.start_environment env).1
        = .error (.runtimeError "Docker Compose failed to start.")
    ∧ (self.start_environment env).2.healthInvoked = false
    ∧ (self.start_environment env).2.executeModelsInvoked = false
    ∧ (self.start_environment env).2.pullCalls = [] := by
  unfold RuntimeManager.start_environment
  rw [if_pos hfs, if_neg hexit]
  exact ⟨rfl, rfl, rfl, rfl⟩

/-- C7 witness: the concrete Unstarted-path-present environment whose up
invocation exits 1 — RuntimeError, and neither the health poll nor the model
load step runs. -/
theorem start_environment_nonzero_exit_aborts_witness :
    ((RuntimeManager.init ollamaCfg).start_environment envUpFails).1
        = .error (.runtimeError "Docker Compose failed to start.")
    ∧ ((RuntimeManager.init ollamaCfg).start_environment envUpFails).2.healthInvoked = false
    ∧ ((RuntimeManager.init ollamaCfg).start_environment envUpFails).2.executeModelsInvoked = false
    ∧ ((RuntimeManager.init ollamaCfg).start_environment envUpFails).2.pullCalls = [] :=
  start_environment_nonzero_exit_aborts (RuntimeManager.init ollamaCfg) envUpFails
    (by simp [RuntimeManager.init, envUpFails]) (by simp [envUpFails])

/-- Membership in a Python-dict key insertion. -/
lemma mem_dictInsert (acc : List String) (k s : String) :
    s ∈ dictInsert acc k ↔ s ∈ acc ∨ s = k := by
  by_cases h : k ∈ acc
  · simp only [dictInsert, if_pos h]
    exact ⟨Or.inl, fun hs => hs.elim id (fun he => he ▸ h)⟩
  · simp [dictInsert, if_neg h]

/-- Membership after the generator volume-scan fold, for any
accumulator. -/
lemma mem_foldl_addNamedVolume (volumes : List String) (acc : List String) (s : String) :
    s ∈ volumes.foldl addNamedVolume acc ↔
      s ∈ acc ∨ ((∃ vol ∈ volumes, volumeName vol = s) ∧ isNamedVolume s = true) := by
  induction volumes generalizing acc with
  | nil => simp
  | cons v vs ih =>
      rw [List.foldl_cons, ih]
      show s ∈ addNamedVolume acc v ∨ _ ↔ _
      unfold addNamedVolume
      by_cases hv : isNamedVolume (volumeName v) = true
      · rw [if_pos hv, mem_dictInsert]
        constructor
        · rintro ((hs | rfl) | ⟨⟨vol, hmem, hname⟩, hnamed⟩)
          · exact Or.inl hs
          · exact Or.inr ⟨⟨v, by simp, rfl⟩, hv⟩
          · exact Or.inr ⟨⟨vol, by simp [hmem], hname⟩, hnamed⟩
        · rintro (hs | ⟨⟨vol, hmem, hname⟩, hnamed⟩)
          · exact Or.inl (Or.inl hs)
          · rcases List.mem_cons.mp hmem with rfl | hmem'
            · exact Or.inl (Or.inr hname.symm)
            · exact Or.inr ⟨⟨vol, hmem', hname⟩, hnamed⟩
      · rw [if_neg hv]
        constructor
        · rintro (hs | ⟨⟨vol, hmem, hname⟩, hnamed⟩)
          · exact Or.inl hs
          · exact Or.inr ⟨⟨vol, by simp [hmem], hname⟩, hnamed⟩
        · rintro (hs | ⟨⟨vol, hmem, hname⟩, hnamed⟩)
          · exact Or.inl hs
          · rcases List.mem_cons.mp hmem with rfl | hmem'
            · subst hname
              exact absurd hnamed hv
            · exact Or.inr ⟨⟨vol, hmem', hname⟩, hnamed⟩

/-- C8: a string is registered as a top-level named volume by the generator
volume scan if and only if it is the left-hand side (text before the first
colon) of some volume declaration and contains neither a path separator '/'
nor a home-directory marker '~'; in particular "data:/var/lib/x" registers
the named volume "data", while "/host/path:/var/lib/x" and
"~/path:/var/lib/x" register nothing. -/
theorem named_volume_registration :
    (∀ (volumes : List String) (s : String),
        s ∈ collectNamedVolumes volumes ↔
          ((∃ vol ∈ volumes, volumeName vol = s)
            ∧ s.data.contains '/' = false ∧ s.data.contains '~' = false))
    ∧ collectNamedVolumes ["data:/var/lib/x"] = ["data"]
    ∧ collectNamedVolumes ["/host/path:/var/lib/x"] = []
    ∧ collectNamedVolumes ["~/path:/var/lib/x"] = [] := by
  refine ⟨?_, by decide, by decide, by decide⟩
  intro volumes s
  rw [collectNamedVolumes, mem_foldl_addNamedVolume]
  simp [isNamedVolume]

end Runint
